import Mathlib

set_option maxRecDepth 4000

/-!
Verification development for the sandboxed multi-tool execution substrate:
shallow embedding of the four tools (command runner, file reader, file
editor, task ledger) and the repo-exploration interaction session, with
theorems settling the specification claims.

Modelling conventions:
* Python strings are Lean `String`s; Python `len` is `String.length`
  (both count characters).
* Machine paths are lists of path components (`List String`); the
  filesystem is an association list from resolved paths to file contents,
  assumed symlink-free, so `Path.resolve()` is lexical `..`/`.` removal.
* Scores and rewards are exact rationals (`ℚ`); Python float arithmetic
  at these magnitudes is exact for every value the code can produce.
* Subprocess execution is an oracle input (`ExecOutcome`): the decoded
  stdout/stderr and exit code of the child, or the fact that it timed
  out.  Process-level cancellation is modelled as the trace of process
  actions (`kill`, `wait`) the call performs before returning.
-/

/-! ### String helpers (faithful to the Python primitives used) -/

/-- Python `str.strip()` (whitespace at both ends). -/
def trimChars (s : String) : String :=
  ⟨((s.data.dropWhile Char.isWhitespace).reverse.dropWhile Char.isWhitespace).reverse⟩

/-- Python `str.lower()` (character-wise). -/
def lowerStr (s : String) : String := ⟨s.data.map Char.toLower⟩

/-- Python `s.startswith(p)`. -/
def strStartsWith (s p : String) : Bool := p.data.isPrefixOf s.data

/-- Substring occurrence test on character lists (Python `pat in s`). -/
def containsSub : List Char → List Char → Bool
  | s, pat =>
    match s with
    | [] => pat.isEmpty
    | _ :: rest => pat.isPrefixOf s || containsSub rest pat

/-- Python `pat in s` for strings. -/
def containsStr (s pat : String) : Bool := containsSub s.data pat.data

/-- Python `s[:n]` (character slice). -/
def strTake (s : String) (n : Nat) : String := ⟨s.data.take n⟩

/-- First-occurrence replacement on character lists,
Python `s.replace(old, new, 1)`. -/
def replaceFirstList (old new : List Char) : List Char → List Char
  | [] => if old.isEmpty then new else []
  | c :: rest =>
    if old.isPrefixOf (c :: rest) then new ++ (c :: rest).drop old.length
    else c :: replaceFirstList old new rest

/-- Python `content.replace(old_string, new_string, 1)`. -/
def replaceFirst (s old new : String) : String :=
  ⟨replaceFirstList old.data new.data s.data⟩

/-! ### Sandboxed path resolver -/

/-- A resolved absolute path, as its list of components below `/`. -/
abbrev FilePath' := List String

/-- Split a relative path on `/` after Python `lstrip('/')`. -/
def splitSegsAux : List Char → List Char → List String
  | [], acc => [⟨acc.reverse⟩]
  | c :: rest, acc =>
    if c = '/' then (⟨acc.reverse⟩ : String) :: splitSegsAux rest []
    else splitSegsAux rest (c :: acc)

/-- `filepath.lstrip('/')` split into raw segments. -/
def splitSlashes (fp : String) : List String :=
  splitSegsAux (fp.data.dropWhile (· = '/')) []

/-- Lexical resolution of `.`/`..`/empty segments starting from an
already-resolved base, mirroring `Path(root) / filepath` followed by
`resolve()` on a symlink-free filesystem (`..` at the filesystem root
stays at the root). -/
def resolveSegs (base : List String) : List String → List String
  | [] => base
  | s :: rest =>
    if s = "" ∨ s = "." then resolveSegs base rest
    else if s = ".." then resolveSegs base.dropLast rest
    else resolveSegs (base ++ [s]) rest

/-- `_get_safe_path`: strip leading separators, join with the sandbox
root, resolve, and require the result to stay at or below the root
(`resolved_path.relative_to(verl_pwd_resolved)`). -/
def getSafePath (root : FilePath') (filepath : String) : Option FilePath' :=
  let resolved := resolveSegs root (splitSlashes filepath)
  if root.isPrefixOf resolved then some resolved else none

/-! ### Filesystem model -/

/-- Filesystem snapshot: resolved path ↦ text content.  Earlier entries
shadow later ones, so prepending overwrites. -/
abbrev FS := List (FilePath' × String)

def lookupFS : FS → FilePath' → Option String
  | [], _ => none
  | e :: rest, p => if e.1 = p then some e.2 else lookupFS rest p

/-- Apply a sequence of writes in order (later writes win). -/
def applyWrites (fs : FS) (ws : List (FilePath' × String)) : FS :=
  ws.foldl (fun f w => w :: f) fs

/-- Sibling backup path: `str(full_path) + ".bak"`. -/
def bakPath : FilePath' → FilePath'
  | [] => []
  | [s] => [s ++ ".bak"]
  | s :: rest => s :: bakPath rest

/-! ### File reader tool -/

structure ReaderCfg where
  root : FilePath'
  maxFileSize : Nat
  maxLines : Nat
  allowedExtensions : List String
deriving DecidableEq

structure ReaderInstance where
  files_read : List String
  total_lines_read : Nat
  successful_reads : Nat
deriving DecidableEq

structure ReaderResult where
  text : String
  reward : ℚ
  error : Option String
  reads : List FilePath'
  inst : Option ReaderInstance
  lines_read : Nat
  truncated : Bool

/-- Trailing suffix of `name` from its last relevant `.`,
Python `os.path.splitext(name)[1]` (leading dots never start an
extension). -/
def lastDotSuffix : List Char → List Char
  | [] => []
  | c :: rest =>
    if c = '.' then
      if rest.contains '.' then lastDotSuffix rest else '.' :: rest
    else lastDotSuffix rest

/-- `os.path.splitext(full_path)[1].lower()` of a resolved path. -/
def fileExt (p : FilePath') : String :=
  let name := (p.getLastD "").data
  let stripped := name.dropWhile (· = '.')
  if stripped.contains '.' then ⟨(lastDotSuffix stripped).map Char.toLower⟩ else ""

/-- Strip one trailing run of `\r` (the effect of Python
`line.rstrip('\n\r')` after splitting on `\n`). -/
def stripCR (l : String) : String :=
  ⟨(l.data.reverse.dropWhile (fun c => c = '\r' ∨ c = '\n')).reverse⟩

/-- The lines Python file iteration yields (one per `\n`-terminated or
final unterminated line), already `rstrip('\n\r')`-ed. -/
def fileLines (content : String) : List String :=
  if content = "" then []
  else
    let parts := (splitSegsAux' content.data []).map stripCR
    if content.data.getLast? = some '\n' then parts.dropLast else parts
where
  /-- split on `'\n'` keeping empty segments. -/
  splitSegsAux' : List Char → List Char → List String
    | [], acc => [⟨acc.reverse⟩]
    | c :: rest, acc =>
      if c = '\n' then (⟨acc.reverse⟩ : String) :: splitSegsAux' rest []
      else splitSegsAux' rest (c :: acc)

/-- `_read_file_content`: stream at most
`min(num_lines or max_lines, max_lines)` lines, flag truncation when the
cap was hit, and — when a non-zero count was requested and exactly met —
recount the file to detect further lines. -/
def readFileContent (maxLines : Nat) (numLines : Option Nat)
    (lines : List String) : String × Nat × Bool :=
  let requested := match numLines with
    | none => maxLines
    | some n => if n = 0 then maxLines else n
  let eff := min requested maxLines
  let taken := lines.take eff
  let linesRead := taken.length
  let truncatedLoop := decide (eff < lines.length)
  let truncatedCount := match numLines with
    | some n => decide (n ≠ 0) && (linesRead == n) && decide (n < lines.length)
    | none => false
  (String.intercalate "\n" taken, linesRead, truncatedLoop || truncatedCount)

/-- Success payload of the reader (`response_lines` joined by `\n`). -/
def readerText (fp : String) (linesRead : Nat) (truncated : Bool)
    (content : String) : String :=
  String.intercalate "\n"
    (["File: " ++ fp, "Lines read: " ++ toString linesRead]
      ++ (if truncated then ["(Content truncated)"] else [])
      ++ ["", "Content:", "```", content, "```"])

/-- `FileReaderTool.execute` over a filesystem snapshot.  `reads` logs
which files' contents the call actually read. -/
def readerExecute (cfg : ReaderCfg) (fs : FS) (inst : Option ReaderInstance)
    (filepath : String) (numLines : Option Nat) : ReaderResult :=
  let fp := trimChars filepath
  if fp = "" then
    ⟨"Error: filepath parameter is required", 0, some "missing_filepath", [], inst, 0, false⟩
  else
    match getSafePath cfg.root fp with
    | none =>
      ⟨"Error: Invalid or unsafe file path: " ++ fp, 0, some "invalid_path", [], inst, 0, false⟩
    | some p =>
      match lookupFS fs p with
      | none =>
        ⟨"Error: File not found: " ++ fp, 0, some "file_not_found", [], inst, 0, false⟩
      | some content =>
        if !cfg.allowedExtensions.isEmpty
            && !(cfg.allowedExtensions.contains (fileExt p)) then
          ⟨"Error: File type not allowed.", 0, some "forbidden_extension", [], inst, 0, false⟩
        else if cfg.maxFileSize < content.length then
          ⟨"Error: File too large", 0, some "file_too_large", [], inst, 0, false⟩
        else
          let r := readFileContent cfg.maxLines numLines (fileLines content)
          let inst' := inst.map (fun i =>
            { files_read := i.files_read ++ [fp],
              total_lines_read := i.total_lines_read + r.2.1,
              successful_reads := i.successful_reads + 1 })
          ⟨readerText fp r.2.1 r.2.2 r.1, 1, none, [p], inst', r.2.1, r.2.2⟩

/-! ### File editor tool -/

structure EditCfg where
  root : FilePath'
  maxFileSize : Nat
  createBackup : Bool
deriving DecidableEq

structure EditResult where
  text : String
  reward : ℚ
  error : Option String
  reads : List FilePath'
  writes : List (FilePath' × String)
  edits_made : Option Nat

/-- Success payload of the editor. -/
def editText (fp : String) (backup : Bool) : String :=
  "Successfully edited " ++ fp ++ "\nReplaced 1 occurrence"
    ++ (if backup then "\nBackup: " ++ fp ++ ".bak" else "")

/-- `FileEditTool.execute` over a filesystem snapshot.  `writes` is the
ordered list of file writes the call performs (backup first, then the
edited original); `reads` logs content reads. -/
def fileEditExecute (cfg : EditCfg) (fs : FS) (inst : Option Nat)
    (filepath old_string new_string : String) : EditResult :=
  let fp := trimChars filepath
  if fp = "" then
    ⟨"Error: filepath is required", 0, some "missing_filepath", [], [], inst⟩
  else if old_string = "" then
    ⟨"Error: old_string is required", 0, some "missing_old_string", [], [], inst⟩
  else
    match getSafePath cfg.root fp with
    | none => ⟨"Error: Invalid path: " ++ fp, 0, some "invalid_path", [], [], inst⟩
    | some p =>
      match lookupFS fs p with
      | none => ⟨"Error: File not found: " ++ fp, 0, some "file_not_found", [], [], inst⟩
      | some content =>
        if cfg.maxFileSize < content.length then
          ⟨"Error: File too large", 0, some "file_too_large", [], [], inst⟩
        else if !containsStr content old_string then
          ⟨"Error: String not found in file", 0, some "string_not_found", [p], [], inst⟩
        else
          let newContent := replaceFirst content old_string new_string
          let writes := (if cfg.createBackup then [(bakPath p, content)] else [])
            ++ [(p, newContent)]
          ⟨editText fp cfg.createBackup, 1, none, [p], writes, inst.map (· + 1)⟩

/-! ### Command runner (bash tool) -/

/-- Observable outcome of the spawned subprocess: its exit code and
decoded stdout/stderr, or expiry of the timeout. -/
inductive ExecOutcome where
  | completed (returncode : Int) (stdoutRaw stderrRaw : String)
  | timedOut
deriving DecidableEq

/-- Actions the engine performs on the child process before returning. -/
inductive ProcAction where
  | kill
  | wait
deriving DecidableEq

/-- `"\n[Executed in: " + verl_pwd + "]"`, appended to short outputs. -/
def execSuffix (pwd : String) : String := "\n[Executed in: " ++ pwd ++ "]"

def truncationMarker : String := "\n... (output truncated)"

/-- Tail of `_execute_bash_command`: append the working-directory note
to outputs under 500 characters, then truncate past the configured cap. -/
def formatOutput (cap : Nat) (pwd : String) (out : String) : String :=
  let out1 := if out.length < 500 then out ++ execSuffix pwd else out
  if cap < out1.length then strTake out1 cap ++ truncationMarker else out1

/-- Raw output text by exit status (before suffix/truncation). -/
def baseOutput (pwd : String) (returncode : Int) (stdoutRaw stderrRaw : String) : String :=
  let out := trimChars stdoutRaw
  let err := trimChars stderrRaw
  if returncode = 0 then
    if out = "" then "Command executed successfully in " ++ pwd else out
  else
    (if err = "" then "Command failed with exit code " ++ toString returncode
     else "Error (exit code " ++ toString returncode ++ "): " ++ err)
      ++ (if out = "" then "" else "\nStdout: " ++ out)

/-- `_execute_bash_command`: the result text together with the process
actions performed (on timeout the child is killed, then reaped). -/
def execBashCommand (cap : Nat) (pwd : String) (timeout : Nat)
    (outcome : ExecOutcome) : String × List ProcAction :=
  match outcome with
  | .completed rc sout serr => (formatOutput cap pwd (baseOutput pwd rc sout serr), [])
  | .timedOut =>
    ("Error: Command timed out after " ++ toString timeout ++ " seconds in " ++ pwd,
     [ProcAction.kill, ProcAction.wait])

/-- `command.strip().startswith(allowed_cmd)` against a non-empty
allow-list; an empty list allows everything. -/
def commandAllowed (allowed : List String) (cmd : String) : Bool :=
  allowed.isEmpty || allowed.any (fun a => strStartsWith (trimChars cmd) a)

structure BashInstance where
  commands_executed : List String
  outputs : List String
  total_reward : ℚ
  successful_commands : Nat

structure BashResult where
  text : String
  reward : ℚ
  error : Option String
  success : Option Bool
  trace : List ProcAction
  inst : Option BashInstance

/-- `BashTool.execute`: parameter validation, allow-list check, engine
invocation, reward from whether the result text starts with `"Error:"`,
and per-instance bookkeeping only when the id is known. -/
def bashExecute (allowed : List String) (cap : Nat) (pwd : String) (timeout : Nat)
    (inst : Option BashInstance) (cmd : String) (outcome : ExecOutcome) : BashResult :=
  if cmd = "" then
    ⟨"Error: No command provided", 0, some "missing_command", none, [], inst⟩
  else if !commandAllowed allowed cmd then
    ⟨"Error: Command not allowed. Allowed commands start with: " ++ toString allowed,
     0, some "forbidden_command", none, [], inst⟩
  else
    let r := execBashCommand cap pwd timeout outcome
    let reward : ℚ := if strStartsWith r.1 "Error:" then 0 else 1
    let inst' := inst.map (fun i =>
      { commands_executed := i.commands_executed ++ [cmd],
        outputs := i.outputs ++ [r.1],
        total_reward := i.total_reward + reward,
        successful_commands :=
          i.successful_commands + (if strStartsWith r.1 "Error:" then 0 else 1) })
    ⟨r.1, reward, none, some (decide (0 < reward)), r.2, inst'⟩

/-! ### Todo ledger -/

structure TodoItem where
  id : String
  text : String
  completed : Bool
  priority : String
  created_at : Nat
  completed_at : Option Nat
deriving DecidableEq

structure TodoState where
  todos : List (String × TodoItem)
  next_id : Nat
  total_added : Nat
  total_completed : Int
deriving DecidableEq

/-- Fresh ledger record created by `TodoListTool.create`. -/
def freshTodo : TodoState := ⟨[], 1, 0, 0⟩

/-- Result of one ledger helper: response text, reward, error tag, and
the (possibly updated) ledger record. -/
structure TodoR where
  text : String
  reward : ℚ
  error : Option String
  st : TodoState

def lookupTodo : List (String × TodoItem) → String → Option TodoItem
  | [], _ => none
  | e :: rest, k => if e.1 = k then some e.2 else lookupTodo rest k

def updateTodo (l : List (String × TodoItem)) (k : String) (v : TodoItem) :
    List (String × TodoItem) :=
  l.map (fun e => if e.1 = k then (e.1, v) else e)

def removeTodo (l : List (String × TodoItem)) (k : String) :
    List (String × TodoItem) :=
  l.filter (fun e => !(e.1 == k))

/-- `_add_item`. -/
def addItem (maxItems : Nat) (st : TodoState) (item_text : String)
    (priority : Option String) (now : Nat) : TodoR :=
  let t := trimChars item_text
  if t = "" then
    ⟨"Error: item_text is required for adding a todo item.", 0, some "missing_item_text", st⟩
  else if maxItems ≤ st.todos.length then
    ⟨"Error: Maximum number of todo items reached.", 0, some "max_items_reached", st⟩
  else
    let idStr := toString st.next_id
    let item : TodoItem := ⟨idStr, t, false, priority.getD "medium", now, none⟩
    ⟨"Added todo item #" ++ idStr ++ ": " ++ t, 1, none,
     { st with todos := st.todos ++ [(idStr, item)],
               next_id := st.next_id + 1,
               total_added := st.total_added + 1 }⟩

/-- `_complete_item` (already-completed items are a 0.5-reward no-op). -/
def completeItem (st : TodoState) (item_id : String) (now : Nat) : TodoR :=
  let iid := trimChars item_id
  if iid = "" then
    ⟨"Error: item_id is required for completing a todo item.", 0, some "missing_item_id", st⟩
  else
    match lookupTodo st.todos iid with
    | none => ⟨"Error: Todo item #" ++ iid ++ " not found.", 0, some "item_not_found", st⟩
    | some item =>
      if item.completed then
        ⟨"Todo item #" ++ iid ++ " is already completed.", 1/2, none, st⟩
      else
        ⟨"Completed todo item #" ++ iid, 1, none,
         { st with todos := updateTodo st.todos iid
                     { item with completed := true, completed_at := some now },
                   total_completed := st.total_completed + 1 }⟩

/-- `_incomplete_item`. -/
def incompleteItem (st : TodoState) (item_id : String) : TodoR :=
  let iid := trimChars item_id
  if iid = "" then
    ⟨"Error: item_id is required.", 0, some "missing_item_id", st⟩
  else
    match lookupTodo st.todos iid with
    | none => ⟨"Error: Todo item #" ++ iid ++ " not found.", 0, some "item_not_found", st⟩
    | some item =>
      if !item.completed then
        ⟨"Todo item #" ++ iid ++ " is already incomplete.", 1/2, none, st⟩
      else
        ⟨"Marked todo item #" ++ iid ++ " as incomplete", 1, none,
         { st with todos := updateTodo st.todos iid
                     { item with completed := false, completed_at := none },
                   total_completed := st.total_completed - 1 }⟩

/-- `_remove_item`. -/
def removeItem (st : TodoState) (item_id : String) : TodoR :=
  let iid := trimChars item_id
  if iid = "" then
    ⟨"Error: item_id is required.", 0, some "missing_item_id", st⟩
  else
    match lookupTodo st.todos iid with
    | none => ⟨"Error: Todo item #" ++ iid ++ " not found.", 0, some "item_not_found", st⟩
    | some item =>
      ⟨"Removed todo item #" ++ iid, 1, none,
       { st with todos := removeTodo st.todos iid,
                 total_completed :=
                   if item.completed then st.total_completed - 1 else st.total_completed }⟩

/-- `_clear_list` (note: `total_added` is deliberately left untouched). -/
def clearList (st : TodoState) : TodoR :=
  ⟨"Cleared all todo items", 1, none, { st with todos := [], total_completed := 0 }⟩

/-- `_search_items` (case-insensitive substring match over item text). -/
def searchItems (st : TodoState) (search_query : String) : TodoR :=
  let q := lowerStr (trimChars search_query)
  if q = "" then
    ⟨"Error: search_query is required.", 0, some "missing_search_query", st⟩
  else
    let found := (st.todos.map (·.2)).filter (fun i => containsStr (lowerStr i.text) q)
    ⟨"Found " ++ toString found.length ++ " matching item(s)", 1, none, st⟩

/-- `priority_order.get(x.priority, 1)` with high<medium<low. -/
def priorityRank (p : String) : Nat :=
  if p = "high" then 0 else if p = "medium" then 1 else if p = "low" then 2 else 1

/-- Stable insertion sort for a strict `lt` (equal-key elements keep
their original relative order, like Python's stable `list.sort`). -/
def insertSorted (lt : α → α → Bool) (x : α) : List α → List α
  | [] => [x]
  | y :: ys => if lt x y then x :: y :: ys else y :: insertSorted lt x ys

def stableSort (lt : α → α → Bool) (l : List α) : List α :=
  l.foldl (fun acc x => insertSorted lt x acc) []

/-- Pending order: priority rank ascending, then creation time ascending. -/
def pendingLt (a b : TodoItem) : Bool :=
  priorityRank a.priority < priorityRank b.priority
    || (priorityRank a.priority = priorityRank b.priority && a.created_at < b.created_at)

/-- Completed order: `completed_at or created_at` descending
(`sort(..., reverse=True)`). -/
def completedGt (a b : TodoItem) : Bool :=
  b.completed_at.getD b.created_at < a.completed_at.getD a.created_at

/-- Structured content of `_list_items`: the partition, the sort orders,
and the at-most-ten completed items actually shown. -/
structure TodoListing where
  pending : List TodoItem
  completedAll : List TodoItem
  shown : List TodoItem
  totalItems : Nat
  pendingCount : Nat
  completedCount : Nat
deriving DecidableEq

/-- `_list_items`. -/
def listItems (st : TodoState) : TodoListing :=
  let values := st.todos.map (·.2)
  let pend := stableSort pendingLt (values.filter (fun i => !i.completed))
  let comp := stableSort completedGt (values.filter (fun i => i.completed))
  ⟨pend, comp, comp.take 10, values.length, pend.length, comp.length⟩

/-- `TodoListTool.calc_reward`: `total_completed / total_added`
(0 when nothing was added). -/
def calcRewardTodo (st : TodoState) : ℚ :=
  if st.total_added = 0 then 0 else (st.total_completed : ℚ) / (st.total_added : ℚ)

/-- Parameters of one `TodoListTool.execute` call. -/
structure TodoParams where
  item_text : String := ""
  item_id : String := ""
  priority : Option String := none
  search_query : String := ""

/-- Result of `TodoListTool.execute`: like `TodoR` but the record is
absent when the instance id was unknown. -/
structure TodoExecResult where
  text : String
  reward : ℚ
  error : Option String
  st : Option TodoState

/-- `TodoListTool.execute`: unlike the other three tools, it rejects an
unknown instance id before dispatching on the action. -/
def todoExecute (maxItems : Nat) (inst : Option TodoState) (action : String)
    (params : TodoParams) (now : Nat) : TodoExecResult :=
  match inst with
  | none =>
    ⟨"Error: Todo list instance not found. Please create it first.", 0,
     some "instance_not_found", none⟩
  | some st =>
    let lift := fun (r : TodoR) => (⟨r.text, r.reward, r.error, some r.st⟩ : TodoExecResult)
    if action = "add" then lift (addItem maxItems st params.item_text params.priority now)
    else if action = "complete" then lift (completeItem st params.item_id now)
    else if action = "incomplete" then lift (incompleteItem st params.item_id)
    else if action = "list" then
      ⟨"listing", 1, none, some st⟩
    else if action = "remove" then lift (removeItem st params.item_id)
    else if action = "clear" then lift (clearList st)
    else if action = "search" then lift (searchItems st params.search_query)
    else ⟨"Error: Unknown action", 0, some "unknown_action", some st⟩

/-! ### Interaction session state machine -/

structure CCConfig where
  max_turns : Nat
  min_analysis_length : Nat

structure CCState where
  ground_truth : Option String
  turn_count : Nat
  tool_usage_score : ℚ
  analysis_quality_score : ℚ
  completeness_score : ℚ
  has_used_todo : Bool
  has_used_bash : Bool
  has_used_file_reader : Bool
deriving DecidableEq

/-- `start_interaction`: fresh session record. -/
def startInteraction (ground_truth : Option String) : CCState :=
  ⟨ground_truth, 0, 0, 0, 0, false, false, false⟩

/-- `any(keyword in content for keyword in kws)`. -/
def containsAny (s : String) (kws : List String) : Bool :=
  kws.any (fun k => containsStr s k)

/-- `_analyze_tool_usage`: latch the three tool-usage flags from keyword
scans of the lowercased message and recompute `tool_usage_score`. -/
def analyzeToolUsage (st : CCState) (content : String) : CCState :=
  let cl := lowerStr content
  let t := st.has_used_todo || containsAny cl ["todo", "task", "plan", "step"]
  let b := st.has_used_bash || containsAny cl ["ls", "bash", "command", "execute"]
  let f := st.has_used_file_reader || containsAny cl ["read", "file", "examine", "content"]
  let used : Nat := (if t then 1 else 0) + (if b then 1 else 0) + (if f then 1 else 0)
  { st with has_used_todo := t, has_used_bash := b, has_used_file_reader := f,
            tool_usage_score := (used : ℚ) / 3 }

/-- `_calculate_analysis_quality`: category-specific keyword rubric with
a generic fallback, capped at 1. -/
def calculateAnalysisQuality (rl : String) (gt : Option String) : ℚ :=
  let score : ℚ :=
    if gt = some "repository_overview_analysis" then
      (if containsAny rl ["structure", "architecture", "organize", "framework"] then 3/10 else 0)
        + (if containsAny rl ["purpose", "goal", "function", "system"] then 3/10 else 0)
        + (if containsAny rl ["component", "module", "tool", "directory"] then 2/10 else 0)
        + (if containsAny rl ["verl", "reinforcement", "learning", "training"] then 2/10 else 0)
    else if gt = some "tools_architecture_analysis" then
      (if containsAny rl ["basetool", "base_tool", "inherit", "abstract"] then 4/10 else 0)
        + (if containsAny rl ["method", "async", "execute", "create"] then 3/10 else 0)
        + (if containsAny rl ["schema", "config", "register", "load"] then 3/10 else 0)
    else if gt = some "configuration_system_analysis" then
      (if containsAny rl ["yaml", "config", "parameter", "setting"] then 4/10 else 0)
        + (if containsAny rl ["example", "template", "sample"] then 3/10 else 0)
        + (if containsAny rl ["model", "batch", "learning", "optimizer"] then 3/10 else 0)
    else
      (if containsAny rl ["analyze", "understand", "examine", "investigate"] then 5/10 else 0)
        + (if containsAny rl ["pattern", "structure", "design", "implement"] then 3/10 else 0)
        + (if containsAny rl ["conclusion", "summary", "insight", "finding"] then 2/10 else 0)
  min score 1

/-- `calculate_score`: the fixed weighted blend over the stored
sub-scores, capped at 1. -/
def calculateScore (st : CCState) : ℚ :=
  min (st.tool_usage_score * (2/5) + st.analysis_quality_score * (2/5)
        + st.completeness_score * (1/5)) 1

/-- `_evaluate_completion`: recompute `analysis_quality_score` and
`completeness_score`, then decide termination (success at
completeness ≥ 0.8, else turn budget). -/
def evaluateCompletion (cfg : CCConfig) (st : CCState) (content : String) :
    Bool × CCState :=
  let aq := calculateAnalysisQuality (lowerStr content) st.ground_truth
  let comp := (((if cfg.min_analysis_length ≤ content.length then 1 else 0)
      + (if (67:ℚ)/100 ≤ st.tool_usage_score then 1 else 0)
      + (if (67:ℚ)/100 ≤ aq then 1 else 0) : Nat) : ℚ) / 3
  let st' := { st with analysis_quality_score := aq, completeness_score := comp }
  if (4:ℚ)/5 ≤ comp then (true, st')
  else if cfg.max_turns ≤ st'.turn_count then (true, st')
  else (false, st')

/-- Latest assistant message of the transcript (role, content pairs),
scanning from the end; `""` when there is none. -/
def extractLatestAssistant (messages : List (String × String)) : String :=
  match messages.reverse.find? (fun m => m.1 == "assistant") with
  | some m => m.2
  | none => ""

/-- `generate_response`: bump the turn counter, rescan tool usage, take
the returned score from `calculate_score` (at this point
`analysis_quality_score` and `completeness_score` still hold their
pre-turn values), then run `_evaluate_completion` and return its
termination verdict with the updated record. -/
def generateResponse (cfg : CCConfig) (st : CCState)
    (messages : List (String × String)) : Bool × ℚ × CCState :=
  let content := extractLatestAssistant messages
  let st1 := analyzeToolUsage { st with turn_count := st.turn_count + 1 } content
  let turnScore := calculateScore st1
  let r := evaluateCompletion cfg st1 content
  (r.1, turnScore, r.2)

/-! ### Helper lemmas -/

theorem strData_append (s t : String) : (s ++ t).data = s.data ++ t.data := by
  cases s; cases t; rfl

theorem strLength_append (s t : String) : (s ++ t).length = s.length + t.length := by
  show (s ++ t).data.length = s.data.length + t.data.length
  rw [strData_append, List.length_append]

theorem isPrefixOfSelf {α} [BEq α] [LawfulBEq α] (l : List α) : l.isPrefixOf l = true := by
  induction l with
  | nil => rfl
  | cons a as ih => simp [List.isPrefixOf, ih]

theorem listPrefixAppend {p a : List Char} (b : List Char)
    (h : p.isPrefixOf a = true) : p.isPrefixOf (a ++ b) = true := by
  induction p generalizing a with
  | nil => simp [List.isPrefixOf]
  | cons q qs ih =>
    cases a with
    | nil => simp [List.isPrefixOf] at h
    | cons c cs =>
      simp only [List.isPrefixOf, List.cons_append, Bool.and_eq_true] at h ⊢
      exact ⟨h.1, ih h.2⟩

theorem listPrefixTake {p a : List Char} (n : Nat)
    (h : p.isPrefixOf a = true) (hn : p.length ≤ n) : p.isPrefixOf (a.take n) = true := by
  induction p generalizing a n with
  | nil => simp [List.isPrefixOf]
  | cons q qs ih =>
    cases a with
    | nil => simp [List.isPrefixOf] at h
    | cons c cs =>
      cases n with
      | zero => simp at hn
      | succ m =>
        have hm : qs.length ≤ m := by
          simp [List.length_cons] at hn; omega
        simp only [List.isPrefixOf, List.take_succ_cons, Bool.and_eq_true] at h ⊢
        exact ⟨h.1, ih m h.2 hm⟩

theorem strStartsWithAppend (a b p : String) (h : strStartsWith a p = true) :
    strStartsWith (a ++ b) p = true := by
  unfold strStartsWith at h ⊢
  rw [strData_append]
  exact listPrefixAppend _ h

theorem strStartsWithTake (a p : String) (n : Nat) (h : strStartsWith a p = true)
    (hn : p.length ≤ n) : strStartsWith (strTake a n) p = true := by
  unfold strStartsWith at h ⊢
  show p.data.isPrefixOf (a.data.take n) = true
  exact listPrefixTake n h hn

theorem bakPathNe (p : FilePath') (h : p ≠ []) : bakPath p ≠ p := by
  induction p with
  | nil => exact absurd rfl h
  | cons s rest ih =>
    cases rest with
    | nil =>
      simp [bakPath]
      intro heq
      have hl := congrArg String.length heq
      rw [strLength_append] at hl
      have h4 : (".bak" : String).length = 4 := rfl
      omega
    | cons s2 rest2 =>
      simp [bakPath]
      exact ih (by simp)

/-! ### Claim C1 -/

/-- Claim C1: a caller-supplied filepath whose sandbox-relative lexical
resolution escapes the sandbox root is rejected by both the file reader
and the file editor with an error result and reward 0.0, and no file is
read or written. -/
theorem sandboxEscapeRejected
    (root : FilePath') (mfs ml mfs2 : Nat) (exts : List String) (cb : Bool)
    (fs : FS) (instR : Option ReaderInstance) (instE : Option Nat)
    (filepath old_string new_string : String) (numLines : Option Nat)
    (h : root.isPrefixOf (resolveSegs root (splitSlashes (trimChars filepath))) = false) :
    ((readerExecute ⟨root, mfs, ml, exts⟩ fs instR filepath numLines).error = some "invalid_path"
      ∧ (readerExecute ⟨root, mfs, ml, exts⟩ fs instR filepath numLines).reward = 0
      ∧ (readerExecute ⟨root, mfs, ml, exts⟩ fs instR filepath numLines).reads = [])
    ∧ ((fileEditExecute ⟨root, mfs2, cb⟩ fs instE filepath old_string new_string).error.isSome = true
      ∧ (fileEditExecute ⟨root, mfs2, cb⟩ fs instE filepath old_string new_string).reward = 0
      ∧ (fileEditExecute ⟨root, mfs2, cb⟩ fs instE filepath old_string new_string).reads = []
      ∧ (fileEditExecute ⟨root, mfs2, cb⟩ fs instE filepath old_string new_string).writes = []
      ∧ applyWrites fs
          (fileEditExecute ⟨root, mfs2, cb⟩ fs instE filepath old_string new_string).writes = fs) := by
  have hfp : trimChars filepath ≠ "" := by
    intro hfp
    rw [hfp] at h
    have hsplit : splitSlashes "" = [""] := rfl
    rw [hsplit] at h
    simp [resolveSegs, isPrefixOfSelf] at h
  have hsp : getSafePath root (trimChars filepath) = none := by
    simp [getSafePath, h]
  constructor
  · simp [readerExecute, hfp, hsp]
  · by_cases ho : old_string = "" <;>
      simp [fileEditExecute, hfp, hsp, ho, applyWrites]

/-- Witness for C1 at a concrete escaping path. -/
theorem sandboxEscapeRejected_witness :
    (["sandbox"] : FilePath').isPrefixOf
        (resolveSegs ["sandbox"] (splitSlashes (trimChars "../etc/passwd"))) = false
    ∧ (((readerExecute ⟨["sandbox"], 100, 100, []⟩ [] none "../etc/passwd" none).error = some "invalid_path"
      ∧ (readerExecute ⟨["sandbox"], 100, 100, []⟩ [] none "../etc/passwd" none).reward = 0
      ∧ (readerExecute ⟨["sandbox"], 100, 100, []⟩ [] none "../etc/passwd" none).reads = [])
    ∧ ((fileEditExecute ⟨["sandbox"], 100, true⟩ [] none "../etc/passwd" "a" "b").error.isSome = true
      ∧ (fileEditExecute ⟨["sandbox"], 100, true⟩ [] none "../etc/passwd" "a" "b").reward = 0
      ∧ (fileEditExecute ⟨["sandbox"], 100, true⟩ [] none "../etc/passwd" "a" "b").reads = []
      ∧ (fileEditExecute ⟨["sandbox"], 100, true⟩ [] none "../etc/passwd" "a" "b").writes = []
      ∧ applyWrites []
          (fileEditExecute ⟨["sandbox"], 100, true⟩ [] none "../etc/passwd" "a" "b").writes = [])) :=
  ⟨by decide,
   sandboxEscapeRejected ["sandbox"] 100 100 100 [] true [] none none
     "../etc/passwd" "a" "b" none (by decide)⟩

/-! ### Claim C4 -/

/-- Claim C4: when `old_string` does not occur in the file's content,
the editor returns the NotFound-class error `string_not_found` with
reward 0.0, performs no write (so the filesystem, and in particular the
file's content, is unchanged), and creates no backup. -/
theorem editMissingOldStringNoChange
    (root : FilePath') (mfs : Nat) (cb : Bool) (fs : FS) (instE : Option Nat)
    (filepath old_string new_string : String) (p : FilePath') (content : String)
    (hfp : trimChars filepath ≠ "")
    (hold : old_string ≠ "")
    (hp : getSafePath root (trimChars filepath) = some p)
    (hc : lookupFS fs p = some content)
    (hsize : content.length ≤ mfs)
    (hsub : containsStr content old_string = false) :
    (fileEditExecute ⟨root, mfs, cb⟩ fs instE filepath old_string new_string).error
        = some "string_not_found"
    ∧ (fileEditExecute ⟨root, mfs, cb⟩ fs instE filepath old_string new_string).reward = 0
    ∧ (fileEditExecute ⟨root, mfs, cb⟩ fs instE filepath old_string new_string).writes = []
    ∧ applyWrites fs
        (fileEditExecute ⟨root, mfs, cb⟩ fs instE filepath old_string new_string).writes = fs := by
  have hns : ¬ (mfs < content.length) := not_lt.mpr hsize
  simp [fileEditExecute, hfp, hold, hp, hc, hns, hsub, applyWrites]

/-- Witness for C4: editing `"hello"` with absent `old_string = "xyz"`. -/
theorem editMissingOldStringNoChange_witness :
    (trimChars "a.txt" ≠ "" ∧ "xyz" ≠ ""
      ∧ getSafePath ["r"] (trimChars "a.txt") = some ["r", "a.txt"]
      ∧ lookupFS [(["r", "a.txt"], "hello")] ["r", "a.txt"] = some "hello"
      ∧ ("hello" : String).length ≤ 100
      ∧ containsStr "hello" "xyz" = false)
    ∧ ((fileEditExecute ⟨["r"], 100, true⟩ [(["r", "a.txt"], "hello")] none "a.txt" "xyz" "q").error
        = some "string_not_found"
    ∧ (fileEditExecute ⟨["r"], 100, true⟩ [(["r", "a.txt"], "hello")] none "a.txt" "xyz" "q").reward = 0
    ∧ (fileEditExecute ⟨["r"], 100, true⟩ [(["r", "a.txt"], "hello")] none "a.txt" "xyz" "q").writes = []
    ∧ applyWrites [(["r", "a.txt"], "hello")]
        (fileEditExecute ⟨["r"], 100, true⟩ [(["r", "a.txt"], "hello")] none "a.txt" "xyz" "q").writes
        = [(["r", "a.txt"], "hello")]) :=
  ⟨by decide,
   editMissingOldStringNoChange ["r"] 100 true [(["r", "a.txt"], "hello")] none
     "a.txt" "xyz" "q" ["r", "a.txt"] "hello"
     (by decide) (by decide) (by decide) (by decide) (by decide) (by decide)⟩

/-! ### Claim C5 -/

/-- Claim C5: when `old_string` occurs in the file and backups are
enabled, the editor performs exactly two writes in order — first the
sibling `<originalPath>.bak` holding the pre-edit content verbatim, then
the original path holding the content with only the first occurrence of
`old_string` replaced — and returns reward 1.0. -/
theorem editReplacesFirstWithBackup
    (root : FilePath') (mfs : Nat) (fs : FS) (instE : Option Nat)
    (filepath old_string new_string : String) (p : FilePath') (content : String)
    (hfp : trimChars filepath ≠ "")
    (hold : old_string ≠ "")
    (hp : getSafePath root (trimChars filepath) = some p)
    (hpne : p ≠ [])
    (hc : lookupFS fs p = some content)
    (hsize : content.length ≤ mfs)
    (hsub : containsStr content old_string = true) :
    (fileEditExecute ⟨root, mfs, true⟩ fs instE filepath old_string new_string).reward = 1
    ∧ (fileEditExecute ⟨root, mfs, true⟩ fs instE filepath old_string new_string).writes
        = [(bakPath p, content), (p, replaceFirst content old_string new_string)]
    ∧ lookupFS (applyWrites fs
        (fileEditExecute ⟨root, mfs, true⟩ fs instE filepath old_string new_string).writes) p
        = some (replaceFirst content old_string new_string)
    ∧ lookupFS (applyWrites fs
        (fileEditExecute ⟨root, mfs, true⟩ fs instE filepath old_string new_string).writes)
        (bakPath p)
        = some content := by
  have hns : ¬ (mfs < content.length) := not_lt.mpr hsize
  have hbk : p ≠ bakPath p := Ne.symm (bakPathNe p hpne)
  simp [fileEditExecute, hfp, hold, hp, hc, hns, hsub, applyWrites, lookupFS, hbk]

/-- Witness for C5: the spec's own example, content `"foo bar foo"`,
`old_string="foo"`, `new_string="baz"`, becoming `"baz bar foo"` with a
backup holding `"foo bar foo"`. -/
theorem editReplacesFirstWithBackup_witness :
    (trimChars "f.txt" ≠ "" ∧ "foo" ≠ ""
      ∧ getSafePath ["r"] (trimChars "f.txt") = some ["r", "f.txt"]
      ∧ (["r", "f.txt"] : FilePath') ≠ []
      ∧ lookupFS [(["r", "f.txt"], "foo bar foo")] ["r", "f.txt"] = some "foo bar foo"
      ∧ ("foo bar foo" : String).length ≤ 100
      ∧ containsStr "foo bar foo" "foo" = true
      ∧ replaceFirst "foo bar foo" "foo" "baz" = "baz bar foo"
      ∧ bakPath ["r", "f.txt"] = ["r", "f.txt.bak"])
    ∧ ((fileEditExecute ⟨["r"], 100, true⟩ [(["r", "f.txt"], "foo bar foo")] none "f.txt" "foo" "baz").reward = 1
    ∧ (fileEditExecute ⟨["r"], 100, true⟩ [(["r", "f.txt"], "foo bar foo")] none "f.txt" "foo" "baz").writes
        = [(bakPath ["r", "f.txt"], "foo bar foo"),
           (["r", "f.txt"], replaceFirst "foo bar foo" "foo" "baz")]
    ∧ lookupFS (applyWrites [(["r", "f.txt"], "foo bar foo")]
        (fileEditExecute ⟨["r"], 100, true⟩ [(["r", "f.txt"], "foo bar foo")] none "f.txt" "foo" "baz").writes)
        ["r", "f.txt"]
        = some (replaceFirst "foo bar foo" "foo" "baz")
    ∧ lookupFS (applyWrites [(["r", "f.txt"], "foo bar foo")]
        (fileEditExecute ⟨["r"], 100, true⟩ [(["r", "f.txt"], "foo bar foo")] none "f.txt" "foo" "baz").writes)
        (bakPath ["r", "f.txt"])
        = some "foo bar foo") :=
  ⟨by decide,
   editReplacesFirstWithBackup ["r"] 100 [(["r", "f.txt"], "foo bar foo")] none
     "f.txt" "foo" "baz" ["r", "f.txt"] "foo bar foo"
     (by decide) (by decide) (by decide) (by decide) (by decide) (by decide) (by decide)⟩

/-! ### Claim C6 (corrected) -/

/-- Counterexample to C6 as stated: a requested line count of 0 is falsy
in `num_lines or self.max_lines`, so the reader streams the whole file
(here 2 lines) instead of `min(0, max_lines) = 0` lines. -/
theorem readFileContentZeroRequestReadsAll :
    (readFileContent 10 (some 0) ["a", "b"]).2.1 = 2
    ∧ ¬ ((readFileContent 10 (some 0) ["a", "b"]).2.1 ≤ min 0 10) := by
  decide

/-- Claim C6 (amended to positive requested counts): for a positive
requested count the reader streams at most `min(num_lines, max_lines)`
lines and reports truncation exactly when the file had more lines than
were streamed; with no requested count it streams at most `max_lines`
with the same exact truncation report. -/
theorem readFileContentBounds (maxLines n : Nat) (lines : List String) (hn : 0 < n) :
    (readFileContent maxLines (some n) lines).2.1 ≤ min n maxLines
    ∧ ((readFileContent maxLines (some n) lines).2.2 = true
        ↔ (readFileContent maxLines (some n) lines).2.1 < lines.length)
    ∧ (readFileContent maxLines none lines).2.1 ≤ maxLines
    ∧ ((readFileContent maxLines none lines).2.2 = true
        ↔ (readFileContent maxLines none lines).2.1 < lines.length) := by
  have hne : n ≠ 0 := hn.ne'
  simp only [readFileContent, List.length_take, hne, if_false, Bool.or_eq_true,
    decide_eq_true_eq, Bool.and_eq_true, beq_iff_eq, ne_eq, not_false_eq_true]
  simp only [Bool.false_eq_true, or_false, false_or, true_and]
  refine ⟨?_, ?_, ?_, ?_⟩ <;> omega

/-- Witness for C6 (amended) at `n = 1` over a two-line file. -/
theorem readFileContentBounds_witness :
    0 < 1
    ∧ ((readFileContent 10 (some 1) ["a", "b"]).2.1 ≤ min 1 10
    ∧ ((readFileContent 10 (some 1) ["a", "b"]).2.2 = true
        ↔ (readFileContent 10 (some 1) ["a", "b"]).2.1 < (["a", "b"] : List String).length)
    ∧ (readFileContent 10 none ["a", "b"]).2.1 ≤ 10
    ∧ ((readFileContent 10 none ["a", "b"]).2.2 = true
        ↔ (readFileContent 10 none ["a", "b"]).2.1 < (["a", "b"] : List String).length)) :=
  ⟨by decide, readFileContentBounds 10 1 ["a", "b"] (by decide)⟩

/-! ### Claim C7 -/

/-- Claim C7: a command whose execution exceeds its timeout returns the
timeout-specific error text with reward 0.0, and the call's process
trace is exactly kill-then-wait: the child is terminated and reaped
before the call returns. -/
theorem bashTimeoutKillsAndReaps (allowed : List String) (cap : Nat) (pwd : String)
    (timeout : Nat) (inst : Option BashInstance) (cmd : String)
    (h1 : cmd ≠ "") (h2 : commandAllowed allowed cmd = true) :
    (bashExecute allowed cap pwd timeout inst cmd .timedOut).text
        = "Error: Command timed out after " ++ toString timeout ++ " seconds in " ++ pwd
    ∧ (bashExecute allowed cap pwd timeout inst cmd .timedOut).reward = 0
    ∧ (bashExecute allowed cap pwd timeout inst cmd .timedOut).trace
        = [ProcAction.kill, ProcAction.wait] := by
  have hsw : strStartsWith
      ("Error: Command timed out after " ++ toString timeout ++ " seconds in " ++ pwd)
      "Error:" = true :=
    strStartsWithAppend _ pwd _
      (strStartsWithAppend _ " seconds in " _
        (strStartsWithAppend _ (toString timeout) _ (by decide)))
  simp [bashExecute, h1, h2, execBashCommand, hsw]

/-- Witness for C7: `sleep 99` under an empty allow-list and a 1-second
timeout. -/
theorem bashTimeoutKillsAndReaps_witness :
    (("sleep 99" : String) ≠ "" ∧ commandAllowed [] "sleep 99" = true)
    ∧ ((bashExecute [] 10000 "/workspace/hyperswitch" 1 none "sleep 99" .timedOut).text
        = "Error: Command timed out after " ++ toString 1 ++ " seconds in " ++ "/workspace/hyperswitch"
    ∧ (bashExecute [] 10000 "/workspace/hyperswitch" 1 none "sleep 99" .timedOut).reward = 0
    ∧ (bashExecute [] 10000 "/workspace/hyperswitch" 1 none "sleep 99" .timedOut).trace
        = [ProcAction.kill, ProcAction.wait]) :=
  ⟨by decide,
   bashTimeoutKillsAndReaps [] 10000 "/workspace/hyperswitch" 1 none "sleep 99"
     (by decide) (by decide)⟩

/-! ### Claim C8 -/

/-- Claim C8: with the output cap above the 500-character suffix
threshold (as configured), the completed-command result text gains a
trailing truncation marker exactly when the output exceeds the cap, and
the working-directory suffix exactly when the untruncated output is
under 500 characters — long outputs get the marker and no suffix, short
outputs the suffix and no marker. -/
theorem formatOutputAsymmetry (cap : Nat) (pwd out : String)
    (h : 500 + (execSuffix pwd).length ≤ cap) :
    formatOutput cap pwd out =
      if out.length < 500 then out ++ execSuffix pwd
      else if cap < out.length then strTake out cap ++ truncationMarker
      else out := by
  unfold formatOutput
  by_cases h5 : out.length < 500
  · have hlen := strLength_append out (execSuffix pwd)
    have hno : ¬ (cap < (out ++ execSuffix pwd).length) := by omega
    have hno' : ¬ (cap < out.length + (execSuffix pwd).length) := by omega
    simp [h5, hno, hno']
  · simp [h5]

/-- Witness for C8: default-sized cap 10000 with a short output. -/
theorem formatOutputAsymmetry_witness :
    500 + (execSuffix "/w").length ≤ 10000
    ∧ formatOutput 10000 "/w" "abc" =
        (if ("abc" : String).length < 500 then "abc" ++ execSuffix "/w"
         else if 10000 < ("abc" : String).length then strTake "abc" 10000 ++ truncationMarker
         else "abc") :=
  ⟨by decide, formatOutputAsymmetry 10000 "/w" "abc" (by decide)⟩

/-! ### Claim C9 -/

/-- Claim C9: on a fresh ledger, `add("x", high)`, `add("y", low)`,
`complete(id of x)`, `list()` yields pending = [y] and completed = [x]
(partitioned and sorted per `_list_items`, with at most ten completed
items shown), and `calc_reward` returns `completed/added = 0.5`. -/
theorem todoScenarioListAndReward :
    (listItems (completeItem
        ((addItem 100 ((addItem 100 freshTodo "x" (some "high") 1).st) "y" (some "low") 2).st)
        "1" 3).st).pending
      = [⟨"2", "y", false, "low", 2, none⟩]
    ∧ (listItems (completeItem
        ((addItem 100 ((addItem 100 freshTodo "x" (some "high") 1).st) "y" (some "low") 2).st)
        "1" 3).st).completedAll
      = [⟨"1", "x", true, "high", 1, some 3⟩]
    ∧ (listItems (completeItem
        ((addItem 100 ((addItem 100 freshTodo "x" (some "high") 1).st) "y" (some "low") 2).st)
        "1" 3).st).shown
      = [⟨"1", "x", true, "high", 1, some 3⟩]
    ∧ calcRewardTodo (completeItem
        ((addItem 100 ((addItem 100 freshTodo "x" (some "high") 1).st) "y" (some "low") 2).st)
        "1" 3).st
      = 1/2 := by
  refine ⟨by decide, by decide, by decide, ?_⟩
  have h1 : (completeItem
      ((addItem 100 ((addItem 100 freshTodo "x" (some "high") 1).st) "y" (some "low") 2).st)
      "1" 3).st.total_added = 2 := by decide
  have h2 : (completeItem
      ((addItem 100 ((addItem 100 freshTodo "x" (some "high") 1).st) "y" (some "low") 2).st)
      "1" 3).st.total_completed = 1 := by decide
  simp [calcRewardTodo, h1, h2]

/-! ### Claim C10 -/

/-- Suffix-appending and cap-truncation preserve a leading `"Error:"`
as long as the cap keeps at least its 6 characters. -/
theorem formatOutputKeepsPrefix (cap : Nat) (pwd s : String)
    (h : strStartsWith s "Error:" = true) (hcap : 6 ≤ cap) :
    strStartsWith (formatOutput cap pwd s) "Error:" = true := by
  have hE : ("Error:" : String).length = 6 := rfl
  simp only [formatOutput]
  by_cases h5 : s.length < 500
  · rw [show (if s.length < 500 then s ++ execSuffix pwd else s) = s ++ execSuffix pwd
      from if_pos h5]
    by_cases h6 : cap < (s ++ execSuffix pwd).length
    · rw [if_pos h6]
      exact strStartsWithAppend _ _ _
        (strStartsWithTake _ _ cap (strStartsWithAppend _ _ _ h) (by omega))
    · rw [if_neg h6]
      exact strStartsWithAppend _ _ _ h
  · rw [show (if s.length < 500 then s ++ execSuffix pwd else s) = s from if_neg h5]
    by_cases h6 : cap < s.length
    · rw [if_pos h6]
      exact strStartsWithAppend _ _ _ (strStartsWithTake _ _ cap h (by omega))
    · rw [if_neg h6]
      exact h

/-- Claim C10: the command runner's per-call reward is 1.0 exactly when
the formatted result text does not start with `"Error:"`; consequently a
command that exits 0 but whose stdout itself begins with `"Error:"`
receives reward 0.0 and metadata `success = false`. -/
theorem bashRewardIffNoErrorText (allowed : List String) (cap : Nat) (pwd : String)
    (timeout : Nat) (inst : Option BashInstance) (cmd2 : String) (outcome : ExecOutcome)
    (cmd stdoutRaw stderrRaw : String)
    (hcap : 6 ≤ cap)
    (hso : strStartsWith (trimChars stdoutRaw) "Error:" = true)
    (h1 : cmd ≠ "") (h2 : commandAllowed allowed cmd = true) :
    ((bashExecute allowed cap pwd timeout inst cmd2 outcome).reward = 1
      ↔ strStartsWith (bashExecute allowed cap pwd timeout inst cmd2 outcome).text "Error:" = false)
    ∧ (bashExecute allowed cap pwd timeout inst cmd (.completed 0 stdoutRaw stderrRaw)).reward = 0
    ∧ (bashExecute allowed cap pwd timeout inst cmd (.completed 0 stdoutRaw stderrRaw)).success
        = some false := by
  constructor
  · by_cases hc2 : cmd2 = ""
    · have he : strStartsWith "Error: No command provided" "Error:" = true := by decide
      simp [bashExecute, hc2, he]
    · by_cases ha2 : commandAllowed allowed cmd2
      · cases hb : strStartsWith (execBashCommand cap pwd timeout outcome).1 "Error:" <;>
          simp [bashExecute, hc2, ha2, hb]
      · have he : strStartsWith
            ("Error: Command not allowed. Allowed commands start with: " ++ toString allowed)
            "Error:" = true :=
          strStartsWithAppend _ _ _ (by decide)
        simp [bashExecute, hc2, ha2, he]
  · have hne : trimChars stdoutRaw ≠ "" := by
      intro hz
      rw [hz] at hso
      exact absurd hso (by decide)
    have hbase : baseOutput pwd 0 stdoutRaw stderrRaw = trimChars stdoutRaw := by
      simp [baseOutput, hne]
    have hkeep : strStartsWith
        (formatOutput cap pwd (baseOutput pwd 0 stdoutRaw stderrRaw)) "Error:" = true := by
      rw [hbase]
      exact formatOutputKeepsPrefix cap pwd _ hso hcap
    simp [bashExecute, h1, h2, execBashCommand, hkeep]

/-- Witness for C10: `./run` exits 0 printing `Error: bad thing`. -/
theorem bashRewardIffNoErrorText_witness :
    (6 ≤ 10000
      ∧ strStartsWith (trimChars "Error: bad thing") "Error:" = true
      ∧ ("./run" : String) ≠ "" ∧ commandAllowed [] "./run" = true)
    ∧ (((bashExecute [] 10000 "/w" 30 none "ls" (.completed 0 "ok" "")).reward = 1
      ↔ strStartsWith (bashExecute [] 10000 "/w" 30 none "ls" (.completed 0 "ok" "")).text
          "Error:" = false)
    ∧ (bashExecute [] 10000 "/w" 30 none "./run" (.completed 0 "Error: bad thing" "")).reward = 0
    ∧ (bashExecute [] 10000 "/w" 30 none "./run" (.completed 0 "Error: bad thing" "")).success
        = some false) :=
  ⟨⟨by decide, by decide, by decide, by decide⟩,
   bashRewardIffNoErrorText [] 10000 "/w" 30 none "ls" (.completed 0 "ok" "")
     "./run" "Error: bad thing" "" (by decide) (by decide) (by decide) (by decide)⟩

/-! ### Claim C2 (corrected) -/

/-- A first-turn assistant message meeting every criterion of the claim:
length ≥ 200, all three tool-category keyword sets, and every keyword
group of the `repository_overview_analysis` rubric. -/
def c2content : String := "todo: plan each step. use ls and bash to execute commands. read each file and examine its content. the structure and architecture reveal the purpose and goal of every component and module in verl reinforcement learning training. extra padding text to be safe."

/-- Counterexample to C2 as stated: on a single perfect first turn the
claim's preconditions all hold — terminate is true, the recomputed
completeness is 1.0 and analysis quality is ≥ 0.9 — yet the score
returned by `generate_response` is 0.4, not 0.96, because it is computed
before `analysis_quality_score` and `completeness_score` are updated
(and even the post-turn recomputed blend is 1.0, since no rubric can
produce an analysis quality strictly between 0.9 and 1). -/
theorem generateResponseClaimedBlendFails :
    (generateResponse ⟨5, 200⟩ (startInteraction (some "repository_overview_analysis"))
      [("user", "explore the repository"), ("assistant", c2content)]).1 = true
    ∧ (generateResponse ⟨5, 200⟩ (startInteraction (some "repository_overview_analysis"))
      [("user", "explore the repository"), ("assistant", c2content)]).2.2.completeness_score = 1
    ∧ (9:ℚ)/10 ≤ (generateResponse ⟨5, 200⟩ (startInteraction (some "repository_overview_analysis"))
      [("user", "explore the repository"), ("assistant", c2content)]).2.2.analysis_quality_score
    ∧ (generateResponse ⟨5, 200⟩ (startInteraction (some "repository_overview_analysis"))
      [("user", "explore the repository"), ("assistant", c2content)]).2.1 = 2/5
    ∧ (generateResponse ⟨5, 200⟩ (startInteraction (some "repository_overview_analysis"))
      [("user", "explore the repository"), ("assistant", c2content)]).2.1 ≠ 24/25
    ∧ calculateScore (generateResponse ⟨5, 200⟩
        (startInteraction (some "repository_overview_analysis"))
        [("user", "explore the repository"), ("assistant", c2content)]).2.2 = 1 := by
  have hail : extractLatestAssistant
      [("user", "explore the repository"), ("assistant", c2content)] = c2content := by decide
  have h1 : containsAny (lowerStr c2content) ["todo", "task", "plan", "step"] = true := by decide
  have h2 : containsAny (lowerStr c2content) ["ls", "bash", "command", "execute"] = true := by
    decide
  have h3 : containsAny (lowerStr c2content) ["read", "file", "examine", "content"] = true := by
    decide
  have h4 : containsAny (lowerStr c2content)
      ["structure", "architecture", "organize", "framework"] = true := by decide
  have h5 : containsAny (lowerStr c2content) ["purpose", "goal", "function", "system"] = true := by
    decide
  have h6 : containsAny (lowerStr c2content)
      ["component", "module", "tool", "directory"] = true := by decide
  have h7 : containsAny (lowerStr c2content)
      ["verl", "reinforcement", "learning", "training"] = true := by decide
  have hlen : c2content.length = 259 := by decide
  simp only [generateResponse, hail, analyzeToolUsage, startInteraction, calculateScore,
    evaluateCompletion, calculateAnalysisQuality, Bool.false_or, h1, h2, h3, h4, h5, h6, h7,
    if_true, hlen]
  norm_num

/-- Claim C2 (amended): the score `generate_response` returns blends the
turn's freshly recomputed `tool_usage` with the session's analysis
quality and completeness as they stood *before* the turn (0.0 on the
first turn); the perfect single turn therefore terminates with stored
completeness 1.0 but returned score 0.4, while `calculate_score` invoked
afterwards returns the fully recomputed blend (1.0 here, as analysis
quality ≥ 0.9 forces analysis quality = 1.0). -/
theorem generateResponseUsesStaleSubScores (cfg : CCConfig) (st : CCState)
    (messages : List (String × String)) :
    ((generateResponse cfg st messages).2.1 =
      min ((analyzeToolUsage { st with turn_count := st.turn_count + 1 }
              (extractLatestAssistant messages)).tool_usage_score * (2/5)
            + st.analysis_quality_score * (2/5) + st.completeness_score * (1/5)) 1)
    ∧ (generateResponse ⟨5, 200⟩ (startInteraction (some "repository_overview_analysis"))
      [("user", "explore the repository"), ("assistant", c2content)]).1 = true
    ∧ (generateResponse ⟨5, 200⟩ (startInteraction (some "repository_overview_analysis"))
      [("user", "explore the repository"), ("assistant", c2content)]).2.2.completeness_score = 1
    ∧ (generateResponse ⟨5, 200⟩ (startInteraction (some "repository_overview_analysis"))
      [("user", "explore the repository"), ("assistant", c2content)]).2.1 = 2/5
    ∧ calculateScore (generateResponse ⟨5, 200⟩
        (startInteraction (some "repository_overview_analysis"))
        [("user", "explore the repository"), ("assistant", c2content)]).2.2 = 1 := by
  refine ⟨rfl, ?_⟩
  have hail : extractLatestAssistant
      [("user", "explore the repository"), ("assistant", c2content)] = c2content := by decide
  have h1 : containsAny (lowerStr c2content) ["todo", "task", "plan", "step"] = true := by decide
  have h2 : containsAny (lowerStr c2content) ["ls", "bash", "command", "execute"] = true := by
    decide
  have h3 : containsAny (lowerStr c2content) ["read", "file", "examine", "content"] = true := by
    decide
  have h4 : containsAny (lowerStr c2content)
      ["structure", "architecture", "organize", "framework"] = true := by decide
  have h5 : containsAny (lowerStr c2content) ["purpose", "goal", "function", "system"] = true := by
    decide
  have h6 : containsAny (lowerStr c2content)
      ["component", "module", "tool", "directory"] = true := by decide
  have h7 : containsAny (lowerStr c2content)
      ["verl", "reinforcement", "learning", "training"] = true := by decide
  have hlen : c2content.length = 259 := by decide
  simp only [generateResponse, hail, analyzeToolUsage, startInteraction, calculateScore,
    evaluateCompletion, calculateAnalysisQuality, Bool.false_or, h1, h2, h3, h4, h5, h6, h7,
    if_true, hlen]
  norm_num

/-! ### Claim C3 (corrected) -/

/-- Counterexample to C3 as stated: the command runner's `execute` with
an instance id that was never created (modelled as an absent instance
record) does not return a NotFound-class error — it executes the
command and returns its output with reward 1.0. -/
theorem bashUnknownInstanceExecutes :
    (bashExecute [] 10000 "/workspace/hyperswitch" 30 none "ls"
        (.completed 0 "file1.txt" "")).error = none
    ∧ (bashExecute [] 10000 "/workspace/hyperswitch" 30 none "ls"
        (.completed 0 "file1.txt" "")).reward = 1
    ∧ (bashExecute [] 10000 "/workspace/hyperswitch" 30 none "ls"
        (.completed 0 "file1.txt" "")).text
      = "file1.txt\n[Executed in: /workspace/hyperswitch]" := by
  decide

/-- Claim C3 (amended): only the task ledger's `execute` rejects an
unknown (never created or released) instance id with a NotFound-class
error and reward 0.0; the command runner, file reader and file editor
proceed with the requested operation for an unknown id, producing
exactly the results they produce for a known id and skipping only the
per-instance bookkeeping. -/
theorem unknownInstanceOnlyTodoRejects
    (maxItems : Nat) (action : String) (params : TodoParams) (now : Nat)
    (allowed : List String) (cap : Nat) (pwd : String) (timeout : Nat)
    (cmd : String) (outcome : ExecOutcome) (bi : BashInstance)
    (rcfg : ReaderCfg) (fs : FS) (filepath : String) (numLines : Option Nat)
    (ri : ReaderInstance)
    (ecfg : EditCfg) (fs2 : FS) (filepath2 old_string new_string : String) (k : Nat) :
    ((todoExecute maxItems none action params now).error = some "instance_not_found"
      ∧ (todoExecute maxItems none action params now).reward = 0)
    ∧ ((bashExecute allowed cap pwd timeout none cmd outcome).text
        = (bashExecute allowed cap pwd timeout (some bi) cmd outcome).text
      ∧ (bashExecute allowed cap pwd timeout none cmd outcome).reward
        = (bashExecute allowed cap pwd timeout (some bi) cmd outcome).reward
      ∧ (bashExecute allowed cap pwd timeout none cmd outcome).error
        = (bashExecute allowed cap pwd timeout (some bi) cmd outcome).error
      ∧ (bashExecute allowed cap pwd timeout none cmd outcome).trace
        = (bashExecute allowed cap pwd timeout (some bi) cmd outcome).trace)
    ∧ ((readerExecute rcfg fs none filepath numLines).text
        = (readerExecute rcfg fs (some ri) filepath numLines).text
      ∧ (readerExecute rcfg fs none filepath numLines).reward
        = (readerExecute rcfg fs (some ri) filepath numLines).reward
      ∧ (readerExecute rcfg fs none filepath numLines).error
        = (readerExecute rcfg fs (some ri) filepath numLines).error
      ∧ (readerExecute rcfg fs none filepath numLines).reads
        = (readerExecute rcfg fs (some ri) filepath numLines).reads
      ∧ (readerExecute rcfg fs none filepath numLines).lines_read
        = (readerExecute rcfg fs (some ri) filepath numLines).lines_read
      ∧ (readerExecute rcfg fs none filepath numLines).truncated
        = (readerExecute rcfg fs (some ri) filepath numLines).truncated)
    ∧ ((fileEditExecute ecfg fs2 none filepath2 old_string new_string).text
        = (fileEditExecute ecfg fs2 (some k) filepath2 old_string new_string).text
      ∧ (fileEditExecute ecfg fs2 none filepath2 old_string new_string).reward
        = (fileEditExecute ecfg fs2 (some k) filepath2 old_string new_string).reward
      ∧ (fileEditExecute ecfg fs2 none filepath2 old_string new_string).error
        = (fileEditExecute ecfg fs2 (some k) filepath2 old_string new_string).error
      ∧ (fileEditExecute ecfg fs2 none filepath2 old_string new_string).reads
        = (fileEditExecute ecfg fs2 (some k) filepath2 old_string new_string).reads
      ∧ (fileEditExecute ecfg fs2 none filepath2 old_string new_string).writes
        = (fileEditExecute ecfg fs2 (some k) filepath2 old_string new_string).writes) := by
  refine ⟨⟨rfl, rfl⟩, ?_, ?_, ?_⟩
  · by_cases h1 : cmd = "" <;> by_cases h2 : commandAllowed allowed cmd <;>
      simp [bashExecute, h1, h2]
  · unfold readerExecute
    dsimp only
    split
    · simp
    · split
      · simp
      · split
        · simp
        · split
          · simp
          · split
            · simp
            · simp
  · unfold fileEditExecute
    dsimp only
    split
    · simp
    · split
      · simp
      · split
        · simp
        · split
          · simp
          · split
            · simp
            · split
              · simp
              · simp
